import Mathlib

/-!
# Artifact lifecycle of the Coqui TTS Streamlit app (`src/app.py`)

Shallow embedding of the temp-file lifecycle code of `src/app.py`:

* the filesystem is a list of `FileEntry` (path, byte content, mtime);
  `os.unlink` removes every entry with the given path, `os.path.exists`
  tests presence, writing (re)places the entry;
* the Tracking Set `st.session_state.temp_files_to_cleanup` (a Python
  `set` of path strings) is a duplicate-free list of strings with
  `add`/`discard`;
* the external synthesis provider (`model.tts_to_file`) is an oracle
  mapping the arguments it is invoked with to an outcome: either it
  writes some bytes to the file and returns, or it raises after leaving
  some partially written bytes behind;
* a Python exception escaping a code region is an `Except.error`; code
  that catches its exceptions (`try`/`except`) returns a plain value.
-/

/-- One file on disk: absolute path, byte content, last-modified time
(seconds). -/
structure FileEntry where
  path : String
  content : List Nat
  mtime : Nat
deriving Repr, DecidableEq

/-- The shared temporary directory, `os.path.exists`'s view of it. -/
abbrev Disk := List FileEntry

/-- The `os.path.exists` check. -/
def pathExists (d : Disk) (p : String) : Bool :=
  d.any (fun f => f.path == p)

/-- Reading a file, `open(p, "rb").read()`, when it is present: content
of the first entry at path `p`. -/
def diskRead (d : Disk) (p : String) : Option (List Nat) :=
  (d.find? (fun f => f.path == p)).map (·.content)

/-- Deletion, `os.unlink p`: the path disappears from the directory. -/
def diskErase (d : Disk) (p : String) : Disk :=
  d.filter (fun f => f.path != p)

/-- Writing bytes `c` to path `p` at time `t` (creation or overwrite). -/
def diskWrite (d : Disk) (p : String) (c : List Nat) (t : Nat) : Disk :=
  ⟨p, c, t⟩ :: diskErase d p

/-- The `set.add` operation on the Tracking Set. -/
def setAdd (s : List String) (p : String) : List String :=
  if s.contains p then s else p :: s

/-- The `set.discard` operation on the Tracking Set. -/
def setDiscard (s : List String) (p : String) : List String :=
  s.filter (· != p)

/-- Session state the lifecycle code manipulates: the temp directory and
the Tracking Set `st.session_state.temp_files_to_cleanup`. -/
structure FSState where
  disk : Disk
  tracking : List String
deriving Repr, DecidableEq

/-- Python truthiness of an optional string argument (`None` and `""` are
falsy). -/
def truthy : Option String → Bool
  | none => false
  | some s => s != ""

/-- The two attributes of a loaded TTS model that `generate_audio`
branches on: `hasattr(model, 'languages') and model.languages` and
`hasattr(model, "speakers") and model.speakers`. -/
structure TTSModel where
  multilingual : Bool
  hasSpeakers : Bool
deriving Repr, DecidableEq

/-- The arguments of one `model.tts_to_file` invocation (the `speed` and
`file_path` arguments are passed through unchanged on every branch and
carry no branching logic, so they are kept outside this record). -/
structure CallArgs where
  text : String
  speaker : Option String
  language : Option String
deriving Repr, DecidableEq

/-- The branching of `generate_audio` (src/app.py lines 84-99) choosing
which keyword arguments `model.tts_to_file` receives. -/
def ttsDispatch (model : TTSModel) (text : String)
    (speaker language : Option String) : CallArgs :=
  if model.multilingual then
    if truthy speaker && truthy language then ⟨text, speaker, language⟩
    else if truthy language then ⟨text, none, language⟩
    else ⟨text, none, some "fr-fr"⟩
  else if truthy speaker && model.hasSpeakers then ⟨text, speaker, none⟩
  else ⟨text, none, none⟩

/-- Outcome of one provider call: `success c` means `tts_to_file`
returned after writing bytes `c`; `failure leftover` means it raised
after leaving `leftover` bytes in the file (possibly none beyond the
empty file `NamedTemporaryFile` created). -/
inductive ProviderOutcome where
  | success (content : List Nat)
  | failure (leftover : List Nat)
deriving Repr, DecidableEq

/-- Result of `generate_audio`: the returned handle (`None` on failure),
the session state afterwards, and the arguments of the single provider
invocation it made. -/
structure GenResult where
  handle : Option String
  state : FSState
  callArgs : CallArgs
deriving Repr, DecidableEq

/-- The function `generate_audio(text, model, speaker, language, speed)`
(src/app.py lines 77-114).  `freshPath` is the unique name
`NamedTemporaryFile` allocates (hypotheses at use sites demand it is not
on disk), `now` the current time.  On provider success the path is added
to the Tracking Set and returned; on provider failure the `except` block
deletes the file if it exists (the path was never added to the Tracking
Set, which is only updated after a successful write), reports the error
via `st.error`, and returns `None`. -/
def generate_audio (s : FSState) (text : String) (model : TTSModel)
    (speaker language : Option String) (freshPath : String) (now : Nat)
    (provider : CallArgs → ProviderOutcome) : GenResult :=
  let disk0 := diskWrite s.disk freshPath [] now
  let args := ttsDispatch model text speaker language
  match provider args with
  | .success content =>
      let disk1 := diskWrite disk0 freshPath content now
      ⟨some freshPath, ⟨disk1, setAdd s.tracking freshPath⟩, args⟩
  | .failure leftover =>
      let disk1 := diskWrite disk0 freshPath leftover now
      let disk2 := if pathExists disk1 freshPath then diskErase disk1 freshPath
                   else disk1
      ⟨none, ⟨disk2, s.tracking⟩, args⟩

/-- Python exceptions that the embedded code regions can let escape. -/
inductive PyError where
  | fileNotFound
deriving Repr, DecidableEq

/-- The read-and-release block of `main` (src/app.py lines 273-284): open
the artifact, read all bytes, stream them to the UI, `os.unlink` the
file.  There is no `try`/`except` around this block, so a missing file
makes `open` raise `FileNotFoundError`, modelled as `Except.error`
(the exception propagates past the caller).  The block never touches the
Tracking Set. -/
def read_and_release (s : FSState) (path : String) :
    Except PyError (List Nat) × FSState :=
  match diskRead s.disk path with
  | some content => (.ok content, ⟨diskErase s.disk path, s.tracking⟩)
  | none => (.error .fileNotFound, s)

/-- One iteration of the `for` loop of `cleanup_temp_files`
(src/app.py lines 26-32): `try: if exists: unlink; discard; except: pass`.
`fails p` says whether `os.unlink p` raises; when it does, the exception
skips the `discard` and is swallowed by `except: pass`. -/
def cleanupStep (fails : String → Bool) (st : FSState) (p : String) :
    FSState :=
  if pathExists st.disk p then
    if fails p then st
    else ⟨diskErase st.disk p, setDiscard st.tracking p⟩
  else ⟨st.disk, setDiscard st.tracking p⟩

/-- The function `cleanup_temp_files()` (src/app.py lines 24-32), the `atexit`
finalizer: iterate a `list(...)` snapshot of the Tracking Set and run
the guarded delete/discard on each path.  Every iteration is wrapped in
`try`/`except: pass`, so the function returns a state for every failure
oracle instead of raising. -/
def cleanup_temp_files (fails : String → Bool) (s : FSState) : FSState :=
  s.tracking.foldl (cleanupStep fails) s

/-- Substring test on character lists (Python's `needle in haystack`). -/
def listIsInfixOf : List Char → List Char → Bool
  | needle, [] => needle.isEmpty
  | needle, c :: rest => needle.isPrefixOf (c :: rest) || listIsInfixOf needle rest

/-- The artifact naming convention: the glob pattern `tmp*.wav` that
`cleanup_orphaned_files` scans for (paths are relative to the shared temp
directory, where `NamedTemporaryFile` puts every artifact). -/
def matchesArtifactPattern (p : String) : Bool :=
  "tmp".toList.isPrefixOf p.toList && ".wav".toList.isSuffixOf p.toList

/-- The scan `glob.glob(os.path.join(temp_dir, "tmp*.wav"))`: the matching paths
present on disk, computed once before the sweep loop runs. -/
def globMatches (d : Disk) : List String :=
  (d.filter (fun f => matchesArtifactPattern f.path)).map (·.path)

/-- One iteration of the sweep loop of `cleanup_orphaned_files`
(src/app.py lines 40-46): look the path up (`os.path.getmtime`), and if
the file is older than the hard-coded one-hour threshold, `os.unlink` it;
`fails p` says whether that unlink raises, and any exception is swallowed
by the inner `except: pass`. -/
def sweepStep (now : Nat) (fails : String → Bool) (d : Disk) (p : String) :
    Disk :=
  match d.find? (fun f => f.path == p) with
  | some f =>
      if f.mtime < now - 3600 then
        if fails p then d else diskErase d p
      else d
  | none => d

/-- The function `cleanup_orphaned_files()` (src/app.py lines 34-48): glob the temp
directory for `tmp*.wav` and delete every match whose mtime is older than
`time.time() - 3600`.  The function takes no threshold argument: 3600
seconds is hard-coded at line 43.  It never reads or writes the Tracking
Set, only the disk. -/
def cleanup_orphaned_files (now : Nat) (fails : String → Bool) (d : Disk) :
    Disk :=
  (globMatches d).foldl (sweepStep now fails) d

/-- The function `load_tts_model(model_name)` (src/app.py lines 61-75): the body of
the `try` either produces a model object or raises; the `except` catches
every exception, emits `st.error("Error loading model: ...")`, and
returns `None`.  The result is the returned value paired with the list
of error statuses shown to the user. -/
def load_tts_model (attempt : Except String TTSModel) :
    Option TTSModel × List String :=
  match attempt with
  | .ok tts => (some tts, [])
  | .error e => (none, ["Error loading model: " ++ e])

/-- The fixed `voice_options` table of `main` (src/app.py lines 188-194):
display label, model identifier, optional speaker identifier. -/
def voice_options : List (String × String × Option String) :=
  [("👨 Pierre (Voix Masculine Claire)", "tts_models/fr/css10/vits", none),
   ("👩 Marie (Voix Féminine Douce)",
     "tts_models/multilingual/multi-dataset/your_tts", some "female-en-5"),
   ("👩 Sophie (Voix Féminine Naturelle)",
     "tts_models/multilingual/multi-dataset/your_tts", some "female-pt-4\n"),
   ("👨 Antoine (Voix Masculine Grave)",
     "tts_models/multilingual/multi-dataset/your_tts", some "male-en-2"),
   ("👨 Laurent (Voix Masculine Expressive)",
     "tts_models/multilingual/multi-dataset/your_tts", some "male-pt-3\n")]

/-- Python's `"your_tts" in model_path` substring test. -/
def containsYourTTS (s : String) : Bool :=
  listIsInfixOf "your_tts".toList s.toList

/-- The argument selection of `main`'s synthesis block (src/app.py lines
264-271) composed with `generate_audio`'s dispatch: for YourTTS models
with a speaker, pass speaker and language `"fr-fr"`; for other models
with a speaker, pass only the speaker; otherwise neither.  The result is
the arguments of the one `tts_to_file` call the provider receives. -/
def mainCallArgs (model : TTSModel) (text modelPath : String)
    (speaker : Option String) : CallArgs :=
  if containsYourTTS modelPath && truthy speaker then
    ttsDispatch model text speaker (some "fr-fr")
  else if truthy speaker then
    ttsDispatch model text speaker none
  else
    ttsDispatch model text none none

/-- The lifecycle-relevant operations the program can perform, used to
record which of them the module body and `main` actually invoke. -/
inductive LifecycleOp where
  | registerExitFinalizer
  | sweepOrphans
  | loadModel
  | generateAudio
  | readAndRelease
  | testVoiceLoading
deriving Repr, DecidableEq

/-- The lifecycle operations the module body runs at import time
(src/app.py lines 1-59): the only one is `atexit.register(cleanup_temp_files)`
at line 51.  `cleanup_orphaned_files` is defined at line 34 but the module
body never calls it. -/
def moduleInitOps : List LifecycleOp := [.registerExitFinalizer]

/-- The lifecycle operations one run of `main()` performs
(src/app.py lines 168-320), in order, as a function of the branch
conditions: the test-loading button (line 177), the model-(re)load guard
(line 201), the model-and-text guard (line 262), and whether
`generate_audio` returned a handle (line 273).  `main` contains no call
to `cleanup_orphaned_files`. -/
def mainSessionOps (testButton reloadNeeded haveModelAndText genOk : Bool) :
    List LifecycleOp :=
  (if testButton then [.testVoiceLoading] else []) ++
  (if reloadNeeded then [.loadModel] else []) ++
  (if haveModelAndText then
    [.generateAudio] ++ (if genOk then [.readAndRelease] else [])
  else [])

/-- A session start: the module body runs (on import), then `main()`. -/
def sessionStartOps (testButton reloadNeeded haveModelAndText genOk : Bool) :
    List LifecycleOp :=
  moduleInitOps ++ mainSessionOps testButton reloadNeeded haveModelAndText genOk

theorem find?_diskErase_self (d : Disk) (p : String) :
    (diskErase d p).find? (fun f => f.path == p) = none := by
  rw [List.find?_eq_none]
  intro f hf
  have h := (List.mem_filter.mp hf).2
  simp only [bne_iff_ne, ne_eq] at h
  simp [h]

theorem pathExists_diskErase_self (d : Disk) (p : String) :
    pathExists (diskErase d p) p = false := by
  unfold pathExists diskErase
  rw [Bool.eq_false_iff]
  intro h
  obtain ⟨f, hf, hp⟩ := List.any_eq_true.mp h
  have h2 := (List.mem_filter.mp hf).2
  simp only [bne_iff_ne, ne_eq] at h2
  exact h2 (by simpa using hp)

theorem diskRead_diskErase_self (d : Disk) (p : String) :
    diskRead (diskErase d p) p = none := by
  unfold diskRead
  rw [find?_diskErase_self]
  rfl

theorem diskRead_diskWrite_self (d : Disk) (p : String) (c : List Nat)
    (t : Nat) : diskRead (diskWrite d p c t) p = some c := by
  simp [diskRead, diskWrite, List.find?_cons_of_pos]

theorem pathExists_diskWrite_self (d : Disk) (p : String) (c : List Nat)
    (t : Nat) : pathExists (diskWrite d p c t) p = true := by
  simp [pathExists, diskWrite]

theorem diskErase_of_not_exists {d : Disk} {p : String}
    (h : pathExists d p = false) : diskErase d p = d := by
  unfold diskErase
  rw [List.filter_eq_self]
  intro f hf
  unfold pathExists at h
  rw [Bool.eq_false_iff] at h
  simp only [bne_iff_ne, ne_eq]
  intro hfp
  exact h (List.any_eq_true.mpr ⟨f, hf, by simp [hfp]⟩)

theorem mem_setAdd_self (s : List String) (p : String) : p ∈ setAdd s p := by
  unfold setAdd
  split
  · next h => exact List.elem_iff.mp h
  · exact List.mem_cons_self p s

/-- C1: when the synthesis provider fails inside `generate_audio`, the
partially written artifact is deleted from disk, the Tracking Set does
not contain its path (it is only added after a successful write, and the
set is left exactly as it was), and the call returns `None` instead of
raising (the `except` block catches the provider's exception). -/
theorem generate_audio_failure_cleans_up
    (s : FSState) (text : String) (model : TTSModel)
    (speaker language : Option String) (freshPath : String) (now : Nat)
    (provider : CallArgs → ProviderOutcome) (leftover : List Nat)
    (htrack : freshPath ∉ s.tracking)
    (hfail : provider (ttsDispatch model text speaker language) =
      .failure leftover) :
    (generate_audio s text model speaker language freshPath now
        provider).handle = none ∧
    pathExists (generate_audio s text model speaker language freshPath now
        provider).state.disk freshPath = false ∧
    freshPath ∉ (generate_audio s text model speaker language freshPath now
        provider).state.tracking ∧
    (generate_audio s text model speaker language freshPath now
        provider).state.tracking = s.tracking := by
  simp only [generate_audio]
  rw [hfail]
  simp only
  refine ⟨trivial, ?_, htrack, trivial⟩
  rw [pathExists_diskWrite_self]
  simp [pathExists_diskErase_self]

/-- Witness for C1 at a concrete input: a failing provider call on a
fresh path in an empty session leaves no file and no tracking entry. -/
theorem generate_audio_failure_cleans_up_witness :
    (generate_audio ⟨[], []⟩ "salut" ⟨true, true⟩ none none "tmpw.wav" 7
        (fun _ => .failure [3, 4])).handle = none ∧
    pathExists (generate_audio ⟨[], []⟩ "salut" ⟨true, true⟩ none none
        "tmpw.wav" 7 (fun _ => .failure [3, 4])).state.disk "tmpw.wav" =
      false ∧
    "tmpw.wav" ∉ (generate_audio ⟨[], []⟩ "salut" ⟨true, true⟩ none none
        "tmpw.wav" 7 (fun _ => .failure [3, 4])).state.tracking ∧
    (generate_audio ⟨[], []⟩ "salut" ⟨true, true⟩ none none "tmpw.wav" 7
        (fun _ => .failure [3, 4])).state.tracking = [] :=
  generate_audio_failure_cleans_up ⟨[], []⟩ "salut" ⟨true, true⟩ none none
    "tmpw.wav" 7 (fun _ => .failure [3, 4]) [3, 4] (by decide) rfl

/-- C6: after a successful `generate_audio` call the artifact file exists
with exactly the bytes the provider wrote (non-empty when the provider
wrote non-empty audio), the handle is returned, and the next
read-and-release on that handle returns exactly those bytes and deletes
the file. -/
theorem generate_audio_success_read_roundtrip
    (s : FSState) (text : String) (model : TTSModel)
    (speaker language : Option String) (freshPath : String) (now : Nat)
    (provider : CallArgs → ProviderOutcome) (content : List Nat)
    (hsucc : provider (ttsDispatch model text speaker language) =
      .success content)
    (hne : content ≠ []) :
    (generate_audio s text model speaker language freshPath now
        provider).handle = some freshPath ∧
    diskRead (generate_audio s text model speaker language freshPath now
        provider).state.disk freshPath = some content ∧
    diskRead (generate_audio s text model speaker language freshPath now
        provider).state.disk freshPath ≠ some [] ∧
    (read_and_release (generate_audio s text model speaker language
        freshPath now provider).state freshPath).1 = .ok content ∧
    pathExists (read_and_release (generate_audio s text model speaker
        language freshPath now provider).state freshPath).2.disk
      freshPath = false := by
  simp only [generate_audio]
  rw [hsucc]
  simp only
  have hread : diskRead (diskWrite (diskWrite s.disk freshPath [] now)
      freshPath content now) freshPath = some content :=
    diskRead_diskWrite_self _ _ _ _
  refine ⟨trivial, hread, by simp [hread, hne], ?_, ?_⟩
  · simp only [read_and_release]
    rw [hread]
  · simp only [read_and_release]
    rw [hread]
    simp [pathExists_diskErase_self]

/-- Witness for C6 at a concrete input: 3 bytes written, the same
3 bytes read back, file gone afterwards. -/
theorem generate_audio_success_read_roundtrip_witness :
    (generate_audio ⟨[], []⟩ "bonjour" ⟨false, false⟩ none none "tmpw.wav" 2
        (fun _ => .success [1, 2, 3])).handle = some "tmpw.wav" ∧
    diskRead (generate_audio ⟨[], []⟩ "bonjour" ⟨false, false⟩ none none
        "tmpw.wav" 2 (fun _ => .success [1, 2, 3])).state.disk "tmpw.wav" =
      some [1, 2, 3] ∧
    diskRead (generate_audio ⟨[], []⟩ "bonjour" ⟨false, false⟩ none none
        "tmpw.wav" 2 (fun _ => .success [1, 2, 3])).state.disk "tmpw.wav" ≠
      some [] ∧
    (read_and_release (generate_audio ⟨[], []⟩ "bonjour" ⟨false, false⟩ none
        none "tmpw.wav" 2 (fun _ => .success [1, 2, 3])).state
      "tmpw.wav").1 = .ok [1, 2, 3] ∧
    pathExists (read_and_release (generate_audio ⟨[], []⟩ "bonjour"
        ⟨false, false⟩ none none "tmpw.wav" 2
        (fun _ => .success [1, 2, 3])).state "tmpw.wav").2.disk
      "tmpw.wav" = false :=
  generate_audio_success_read_roundtrip ⟨[], []⟩ "bonjour" ⟨false, false⟩
    none none "tmpw.wav" 2 (fun _ => .success [1, 2, 3]) [1, 2, 3] rfl
    (by decide)

/-- C8: when a multilingual model is used and no language is supplied,
`generate_audio` still invokes the provider with a language, namely the
default `"fr-fr"` (the final `else` of the multilingual branch), for
every speaker argument and provider outcome. -/
theorem multilingual_default_language_fr
    (s : FSState) (text : String) (model : TTSModel)
    (speaker : Option String) (freshPath : String) (now : Nat)
    (provider : CallArgs → ProviderOutcome)
    (hml : model.multilingual = true) :
    (generate_audio s text model speaker none freshPath now
        provider).callArgs.language = some "fr-fr" ∧
    (generate_audio s text model speaker none freshPath now
        provider).callArgs.language ≠ none := by
  have hargs : ttsDispatch model text speaker none =
      ⟨text, none, some "fr-fr"⟩ := by
    unfold ttsDispatch
    rw [hml]
    simp [truthy]
  have hcall : (generate_audio s text model speaker none freshPath now
      provider).callArgs = ⟨text, none, some "fr-fr"⟩ := by
    simp only [generate_audio, hargs]
    cases provider ⟨text, none, some "fr-fr"⟩ <;> rfl
  rw [hcall]
  exact ⟨rfl, by simp⟩

/-- Witness for C8 at a concrete input: a multilingual model with a
speaker and no language is invoked with language `"fr-fr"`. -/
theorem multilingual_default_language_fr_witness :
    (generate_audio ⟨[], []⟩ "salut" ⟨true, true⟩ (some "spk") none
        "tmpw.wav" 0 (fun _ => .success [1])).callArgs.language =
      some "fr-fr" ∧
    (generate_audio ⟨[], []⟩ "salut" ⟨true, true⟩ (some "spk") none
        "tmpw.wav" 0 (fun _ => .success [1])).callArgs.language ≠ none :=
  multilingual_default_language_fr ⟨[], []⟩ "salut" ⟨true, true⟩
    (some "spk") "tmpw.wav" 0 (fun _ => .success [1]) rfl

/-- C9: a failing model load is caught at the point of the call
(`except Exception as e`), surfaced as exactly one user-visible
`st.error` status, and the function returns `None` instead of
propagating the exception. -/
theorem load_tts_model_error_returns_none (e : String) :
    (load_tts_model (.error e)).1 = none ∧
    (load_tts_model (.error e)).2 = ["Error loading model: " ++ e] ∧
    ∀ attempt : Except String TTSModel,
      (load_tts_model attempt).1 ≠ none → ∃ m, attempt = .ok m := by
  refine ⟨rfl, rfl, ?_⟩
  intro attempt h
  cases attempt with
  | ok m => exact ⟨m, rfl⟩
  | error e' => exact absurd rfl h

/-- C3 counterexample: reading the same handle twice.  The first call
returns the bytes and deletes the file; the second call hits a missing
file, and `open` raises `FileNotFoundError` (`Except.error`), which no
handler in `main` catches — the operation does not return a "not found"
outcome to its caller, contrary to the claim. -/
theorem read_twice_second_raises_cex :
    read_and_release ⟨[⟨"tmpa.wav", [7], 0⟩], ["tmpa.wav"]⟩ "tmpa.wav" =
      (.ok [7], ⟨[], ["tmpa.wav"]⟩) ∧
    read_and_release ⟨[], ["tmpa.wav"]⟩ "tmpa.wav" =
      (.error .fileNotFound, ⟨[], ["tmpa.wav"]⟩) :=
  ⟨rfl, rfl⟩

/-- C3 amended: calling read-and-release twice on the same handle
returns the data exactly once; the second call finds no file and raises
`FileNotFoundError` past the caller (there is no `try`/`except` around
the block in `main`), leaving the state unchanged, rather than returning
a caught "not found" outcome. -/
theorem read_and_release_returns_once_then_raises
    (s : FSState) (p : String) (c : List Nat)
    (h : diskRead s.disk p = some c) :
    (read_and_release s p).1 = .ok c ∧
    (read_and_release (read_and_release s p).2 p).1 =
      .error .fileNotFound ∧
    (read_and_release (read_and_release s p).2 p).2 =
      (read_and_release s p).2 := by
  simp only [read_and_release]
  rw [h]
  simp only
  simp [diskRead_diskErase_self]

/-- Witness for the C3 amended theorem at a concrete input. -/
theorem read_and_release_returns_once_then_raises_witness :
    (read_and_release ⟨[⟨"tmpb.wav", [5, 6], 1⟩], ["tmpb.wav"]⟩
        "tmpb.wav").1 = .ok [5, 6] ∧
    (read_and_release (read_and_release ⟨[⟨"tmpb.wav", [5, 6], 1⟩],
        ["tmpb.wav"]⟩ "tmpb.wav").2 "tmpb.wav").1 =
      .error .fileNotFound ∧
    (read_and_release (read_and_release ⟨[⟨"tmpb.wav", [5, 6], 1⟩],
        ["tmpb.wav"]⟩ "tmpb.wav").2 "tmpb.wav").2 =
      (read_and_release ⟨[⟨"tmpb.wav", [5, 6], 1⟩], ["tmpb.wav"]⟩
        "tmpb.wav").2 :=
  read_and_release_returns_once_then_raises
    ⟨[⟨"tmpb.wav", [5, 6], 1⟩], ["tmpb.wav"]⟩ "tmpb.wav" [5, 6] rfl

/-- C2 counterexample: a successful write followed by read-and-release.
The file is deleted from disk, but the path is still in the Tracking Set
afterwards — `main` never removes it — contradicting the claim that the
path is removed from the Tracking Set when the artifact is deleted. -/
theorem read_release_keeps_tracking_entry_cex :
    (read_and_release (generate_audio ⟨[], []⟩ "hi" ⟨true, true⟩ none none
        "tmpa.wav" 0 (fun _ => .success [7])).state
      "tmpa.wav").2.tracking = ["tmpa.wav"] ∧
    pathExists (read_and_release (generate_audio ⟨[], []⟩ "hi"
        ⟨true, true⟩ none none "tmpa.wav" 0
        (fun _ => .success [7])).state "tmpa.wav").2.disk "tmpa.wav" =
      false := by decide

theorem cleanupStep_tracking_nofail (st : FSState) (p : String) :
    (cleanupStep (fun _ => false) st p).tracking =
      setDiscard st.tracking p := by
  unfold cleanupStep
  split <;> rfl

theorem cleanupStep_disk_nofail (st : FSState) (p : String) :
    (cleanupStep (fun _ => false) st p).disk = diskErase st.disk p := by
  unfold cleanupStep
  split
  · rfl
  · next h =>
      exact (diskErase_of_not_exists (Bool.eq_false_iff.mpr h)).symm

theorem foldl_cleanup_tracking_nofail (ps : List String) (st : FSState) :
    (ps.foldl (cleanupStep (fun _ => false)) st).tracking =
      ps.foldl (fun t p => setDiscard t p) st.tracking := by
  induction ps generalizing st with
  | nil => rfl
  | cons p rest ih =>
      rw [List.foldl_cons, List.foldl_cons, ih,
        cleanupStep_tracking_nofail]

theorem foldl_setDiscard_eq_nil (ps : List String) (t : List String)
    (h : ∀ q ∈ t, q ∈ ps) :
    ps.foldl (fun t p => setDiscard t p) t = [] := by
  induction ps generalizing t with
  | nil =>
      simp only [List.foldl_nil]
      exact List.subset_nil.mp h
  | cons p rest ih =>
      rw [List.foldl_cons]
      apply ih
      intro q hq
      have hmem := List.mem_filter.mp hq
      have hne : q ≠ p := by simpa using hmem.2
      rcases List.mem_cons.mp (h q hmem.1) with h1 | h2
      · exact absurd h1 hne
      · exact h2

theorem foldl_cleanup_disk_nofail (ps : List String) (st : FSState) :
    (ps.foldl (cleanupStep (fun _ => false)) st).disk =
      ps.foldl diskErase st.disk := by
  induction ps generalizing st with
  | nil => rfl
  | cons p rest ih =>
      rw [List.foldl_cons, List.foldl_cons, ih,
        cleanupStep_disk_nofail]

theorem foldl_diskErase_eq_filter (ps : List String) (d : Disk) :
    ps.foldl diskErase d =
      d.filter (fun f => !(ps.contains f.path)) := by
  induction ps generalizing d with
  | nil => simp
  | cons p rest ih =>
      rw [List.foldl_cons, ih]
      unfold diskErase
      rw [List.filter_filter]
      apply List.filter_congr
      intro f _
      simp [List.contains_cons, Bool.not_or, bne, Bool.and_comm,
        Bool.beq_eq_decide_eq]

theorem foldl_cleanup_disk_unchanged (fails : String → Bool)
    (ps : List String) (st : FSState)
    (h : ∀ p ∈ ps, pathExists st.disk p = false) :
    (ps.foldl (cleanupStep fails) st).disk = st.disk := by
  induction ps generalizing st with
  | nil => rfl
  | cons p rest ih =>
      rw [List.foldl_cons]
      have hp : pathExists st.disk p = false := h p (List.mem_cons_self p rest)
      have hstep : cleanupStep fails st p =
          ⟨st.disk, setDiscard st.tracking p⟩ := by
        unfold cleanupStep
        rw [hp]
        rfl
      rw [hstep]
      exact ih ⟨st.disk, setDiscard st.tracking p⟩
        (fun q hq => h q (List.mem_cons_of_mem p hq))

theorem cleanupStep_tracking_subset (fails : String → Bool)
    (st : FSState) (p : String) :
    (cleanupStep fails st p).tracking ⊆ st.tracking := by
  unfold cleanupStep
  split
  · split
    · exact fun q hq => hq
    · exact fun q hq => List.mem_of_mem_filter hq
  · exact fun q hq => List.mem_of_mem_filter hq

theorem foldl_cleanup_tracking_subset (fails : String → Bool)
    (ps : List String) (st : FSState) :
    (ps.foldl (cleanupStep fails) st).tracking ⊆ st.tracking := by
  induction ps generalizing st with
  | nil => exact fun q hq => hq
  | cons p rest ih =>
      rw [List.foldl_cons]
      exact fun q hq =>
        cleanupStep_tracking_subset fails st p (ih (cleanupStep fails st p) hq)

/-- C5: the `atexit` finalizer `cleanup_temp_files` iterates the whole
Tracking Set and attempts a deletion for every tracked artifact.  When no
deletion fails, the Tracking Set ends empty and no previously tracked
path remains on disk, while untracked files are untouched; when every
tracked path is already gone the pass is a silent no-op on the disk for
any failure oracle; and for any failure oracle the function returns
normally with the final Tracking Set a subset of the original (each
iteration is wrapped in `try ... except: pass`, so it never raises). -/
theorem cleanup_temp_files_finalizes (s : FSState)
    (fails : String → Bool) :
    (cleanup_temp_files (fun _ => false) s).tracking = [] ∧
    (∀ p ∈ s.tracking,
      pathExists (cleanup_temp_files (fun _ => false) s).disk p = false) ∧
    (∀ f ∈ s.disk, f.path ∉ s.tracking →
      f ∈ (cleanup_temp_files (fun _ => false) s).disk) ∧
    ((∀ p ∈ s.tracking, pathExists s.disk p = false) →
      (cleanup_temp_files fails s).disk = s.disk) ∧
    (cleanup_temp_files fails s).tracking ⊆ s.tracking := by
  unfold cleanup_temp_files
  refine ⟨?_, ?_, ?_, ?_, ?_⟩
  · rw [foldl_cleanup_tracking_nofail]
    exact foldl_setDiscard_eq_nil _ _ (fun q hq => hq)
  · intro p hp
    rw [foldl_cleanup_disk_nofail, foldl_diskErase_eq_filter]
    rw [Bool.eq_false_iff]
    intro hex
    obtain ⟨f, hf, hfp⟩ := List.any_eq_true.mp hex
    have hmem := List.mem_filter.mp hf
    have : f.path ∈ s.tracking := by
      have : f.path = p := by simpa using hfp
      rwa [this]
    have hcon : s.tracking.contains f.path = true := List.elem_iff.mpr this
    rw [hcon] at hmem
    simpa using hmem.2
  · intro f hf hnot
    rw [foldl_cleanup_disk_nofail, foldl_diskErase_eq_filter]
    apply List.mem_filter.mpr
    refine ⟨hf, ?_⟩
    simp only [Bool.not_eq_eq_eq_not, Bool.not_true]
    rw [← Bool.not_eq_true]
    intro hcon
    exact hnot (List.elem_iff.mp hcon)
  · intro h
    exact foldl_cleanup_disk_unchanged fails s.tracking s h
  · exact foldl_cleanup_tracking_subset fails s.tracking s

/-- Witness for C5 at a concrete input: two tracked artifacts and one
unrelated file; after the finalizer the Tracking Set is empty, the
tracked files are gone, and the unrelated file survives. -/
theorem cleanup_temp_files_finalizes_witness :
    (cleanup_temp_files (fun _ => false)
        ⟨[⟨"tmpa.wav", [1], 0⟩, ⟨"keep.txt", [2], 0⟩, ⟨"tmpb.wav", [3], 0⟩],
         ["tmpa.wav", "tmpb.wav"]⟩).tracking = [] ∧
    pathExists (cleanup_temp_files (fun _ => false)
        ⟨[⟨"tmpa.wav", [1], 0⟩, ⟨"keep.txt", [2], 0⟩, ⟨"tmpb.wav", [3], 0⟩],
         ["tmpa.wav", "tmpb.wav"]⟩).disk "tmpa.wav" = false ∧
    (⟨"keep.txt", [2], 0⟩ : FileEntry) ∈ (cleanup_temp_files (fun _ => false)
        ⟨[⟨"tmpa.wav", [1], 0⟩, ⟨"keep.txt", [2], 0⟩, ⟨"tmpb.wav", [3], 0⟩],
         ["tmpa.wav", "tmpb.wav"]⟩).disk :=
  ⟨(cleanup_temp_files_finalizes
      ⟨[⟨"tmpa.wav", [1], 0⟩, ⟨"keep.txt", [2], 0⟩, ⟨"tmpb.wav", [3], 0⟩],
       ["tmpa.wav", "tmpb.wav"]⟩ (fun _ => false)).1,
   (cleanup_temp_files_finalizes
      ⟨[⟨"tmpa.wav", [1], 0⟩, ⟨"keep.txt", [2], 0⟩, ⟨"tmpb.wav", [3], 0⟩],
       ["tmpa.wav", "tmpb.wav"]⟩ (fun _ => false)).2.1 "tmpa.wav"
     (by decide),
   (cleanup_temp_files_finalizes
      ⟨[⟨"tmpa.wav", [1], 0⟩, ⟨"keep.txt", [2], 0⟩, ⟨"tmpb.wav", [3], 0⟩],
       ["tmpa.wav", "tmpb.wav"]⟩ (fun _ => false)).2.2.1
     ⟨"keep.txt", [2], 0⟩ (by decide) (by decide)⟩

/-- C2 amended: on a successful write the path is added to the Tracking
Set, and a successful read-and-release deletes the file but leaves the
Tracking Set untouched — the stale entry for the already-deleted file
remains in the set.  This is harmless: the finalizer
`cleanup_temp_files` later empties the set, checking existence before
unlinking, so the stale entry never causes an error. -/
theorem read_release_tracking_stale_entry
    (s : FSState) (text : String) (model : TTSModel)
    (speaker language : Option String) (freshPath : String) (now : Nat)
    (provider : CallArgs → ProviderOutcome) (content : List Nat)
    (hsucc : provider (ttsDispatch model text speaker language) =
      .success content) :
    freshPath ∈ (generate_audio s text model speaker language freshPath
        now provider).state.tracking ∧
    (read_and_release (generate_audio s text model speaker language
        freshPath now provider).state freshPath).2.tracking =
      (generate_audio s text model speaker language freshPath now
        provider).state.tracking ∧
    pathExists (read_and_release (generate_audio s text model speaker
        language freshPath now provider).state freshPath).2.disk
      freshPath = false ∧
    freshPath ∈ (read_and_release (generate_audio s text model speaker
        language freshPath now provider).state freshPath).2.tracking ∧
    (cleanup_temp_files (fun _ => false)
        (read_and_release (generate_audio s text model speaker language
          freshPath now provider).state freshPath).2).tracking = [] := by
  have hstate : (generate_audio s text model speaker language freshPath
      now provider).state =
      ⟨diskWrite (diskWrite s.disk freshPath [] now) freshPath content now,
       setAdd s.tracking freshPath⟩ := by
    simp only [generate_audio]
    rw [hsucc]
  have hread : read_and_release
      (⟨diskWrite (diskWrite s.disk freshPath [] now) freshPath content now,
        setAdd s.tracking freshPath⟩ : FSState) freshPath =
      (.ok content,
       ⟨diskErase (diskWrite (diskWrite s.disk freshPath [] now) freshPath
          content now) freshPath,
        setAdd s.tracking freshPath⟩) := by
    simp only [read_and_release]
    rw [diskRead_diskWrite_self]
  rw [hstate, hread]
  refine ⟨mem_setAdd_self _ _, rfl, pathExists_diskErase_self _ _,
    mem_setAdd_self _ _, ?_⟩
  unfold cleanup_temp_files
  rw [foldl_cleanup_tracking_nofail]
  exact foldl_setDiscard_eq_nil _ _ (fun q hq => hq)

/-- Witness for the C2 amended theorem at a concrete input. -/
theorem read_release_tracking_stale_entry_witness :
    "tmpc.wav" ∈ (generate_audio ⟨[], []⟩ "txt" ⟨false, false⟩ none none
        "tmpc.wav" 3 (fun _ => .success [8])).state.tracking ∧
    (read_and_release (generate_audio ⟨[], []⟩ "txt" ⟨false, false⟩ none
        none "tmpc.wav" 3 (fun _ => .success [8])).state
      "tmpc.wav").2.tracking =
      (generate_audio ⟨[], []⟩ "txt" ⟨false, false⟩ none none "tmpc.wav" 3
        (fun _ => .success [8])).state.tracking ∧
    pathExists (read_and_release (generate_audio ⟨[], []⟩ "txt"
        ⟨false, false⟩ none none "tmpc.wav" 3
        (fun _ => .success [8])).state "tmpc.wav").2.disk "tmpc.wav" =
      false ∧
    "tmpc.wav" ∈ (read_and_release (generate_audio ⟨[], []⟩ "txt"
        ⟨false, false⟩ none none "tmpc.wav" 3
        (fun _ => .success [8])).state "tmpc.wav").2.tracking ∧
    (cleanup_temp_files (fun _ => false)
        (read_and_release (generate_audio ⟨[], []⟩ "txt" ⟨false, false⟩
          none none "tmpc.wav" 3 (fun _ => .success [8])).state
        "tmpc.wav").2).tracking = [] :=
  read_release_tracking_stale_entry ⟨[], []⟩ "txt" ⟨false, false⟩ none none
    "tmpc.wav" 3 (fun _ => .success [8]) [8] rfl

/-- The temp directory holds at most one entry per name: paths on disk
are pairwise distinct (what a filesystem directory guarantees). -/
def pathsNodup (d : Disk) : Prop := (d.map (·.path)).Nodup

theorem path_unique {d : Disk} (hd : pathsNodup d) {f g : FileEntry}
    (hf : f ∈ d) (hg : g ∈ d) (hfg : f.path = g.path) : f = g :=
  List.inj_on_of_nodup_map hd hf hg hfg

theorem pathsNodup_filter (d : Disk) (q : FileEntry → Bool)
    (hd : pathsNodup d) : pathsNodup (d.filter q) := by
  unfold pathsNodup at hd ⊢
  exact ((List.filter_sublist d).map (fun f => f.path)).nodup hd

theorem foldl_sweep_eq_filter (now : Nat) (fails : String → Bool)
    (ps : List String) (d : Disk) (hd : pathsNodup d) :
    ps.foldl (sweepStep now fails) d =
      d.filter (fun f => !(ps.contains f.path &&
        decide (f.mtime < now - 3600) && !fails f.path)) := by
  induction ps generalizing d with
  | nil => simp
  | cons p rest ih =>
      rw [List.foldl_cons]
      cases hfind : d.find? (fun f => f.path == p) with
      | none =>
          have hstep : sweepStep now fails d p = d := by
            unfold sweepStep
            rw [hfind]
          rw [hstep, ih d hd]
          apply List.filter_congr
          intro f hf
          have hne : f.path ≠ p := by
            have := List.find?_eq_none.mp hfind f hf
            simpa using this
          simp [List.contains_cons, hne]
      | some f0 =>
          have hf0p : f0.path = p := by
            have := List.find?_some hfind
            simpa using this
          have hf0d : f0 ∈ d := List.mem_of_find?_eq_some hfind
          by_cases hold : f0.mtime < now - 3600
          · by_cases hfl : fails p = true
            · have hstep : sweepStep now fails d p = d := by
                unfold sweepStep
                rw [hfind]
                simp [hold, hfl]
              rw [hstep, ih d hd]
              apply List.filter_congr
              intro f hf
              by_cases hfp : f.path = p
              · simp [List.contains_cons, hfp, hfl]
              · simp [List.contains_cons, hfp]
            · have hstep : sweepStep now fails d p = diskErase d p := by
                unfold sweepStep
                rw [hfind]
                simp [hold, hfl]
              have hfl' : fails p = false := Bool.eq_false_iff.mpr hfl
              rw [hstep, ih (diskErase d p)
                (pathsNodup_filter d _ hd)]
              unfold diskErase
              rw [List.filter_filter]
              apply List.filter_congr
              intro f hf
              by_cases hfp : f.path = p
              · have hff0 : f = f0 := path_unique hd hf hf0d
                  (by rw [hfp, hf0p])
                simp [List.contains_cons, hfp, hfl', hff0, hf0p, hold]
              · simp [List.contains_cons, hfp]
          · have hstep : sweepStep now fails d p = d := by
              unfold sweepStep
              rw [hfind]
              simp [hold]
            rw [hstep, ih d hd]
            apply List.filter_congr
            intro f hf
            by_cases hfp : f.path = p
            · have hff0 : f = f0 := path_unique hd hf hf0d
                (by rw [hfp, hf0p])
              simp [List.contains_cons, hfp, hff0, hf0p, hold]
            · simp [List.contains_cons, hfp]

theorem globMatches_contains {d : Disk} (hd : pathsNodup d)
    {f : FileEntry} (hf : f ∈ d) :
    (globMatches d).contains f.path = matchesArtifactPattern f.path := by
  cases hm : matchesArtifactPattern f.path with
  | true =>
      have : f.path ∈ globMatches d :=
        List.mem_map.mpr ⟨f, List.mem_filter.mpr ⟨hf, hm⟩, rfl⟩
      exact List.elem_iff.mpr this
  | false =>
      rw [Bool.eq_false_iff]
      intro hcon
      obtain ⟨g, hg, hgp⟩ := List.mem_map.mp (List.elem_iff.mp hcon)
      have hgf := List.mem_filter.mp hg
      have hgfeq : g = f := path_unique hd hgf.1 hf hgp
      rw [hgfeq] at hgf
      rw [hgf.2] at hm
      exact Bool.true_eq_false.mp hm

/-- C4 amended: the orphan sweep deletes exactly the `tmp*.wav` files in
the temp directory whose last-modified time is strictly older than the
hard-coded one-hour (3600 s) threshold and whose deletion does not fail
— the threshold is not configurable (the function takes no threshold
argument), so no threshold-zero or huge-threshold call exists.  The
sweep ignores the Tracking Set entirely (it reads only the disk), and
deletion failures are swallowed: a file whose unlink raises survives,
and the sweep still returns normally. -/
theorem cleanup_orphaned_files_characterization (now : Nat)
    (fails : String → Bool) (d : Disk) (hd : pathsNodup d)
    (f : FileEntry) :
    f ∈ cleanup_orphaned_files now fails d ↔
      f ∈ d ∧ ¬(matchesArtifactPattern f.path = true ∧
        f.mtime < now - 3600 ∧ fails f.path = false) := by
  unfold cleanup_orphaned_files
  rw [foldl_sweep_eq_filter now fails _ d hd, List.mem_filter]
  constructor
  · rintro ⟨hf, hpred⟩
    refine ⟨hf, ?_⟩
    rintro ⟨hm, ho, hfl⟩
    rw [globMatches_contains hd hf, hm, hfl] at hpred
    simp [ho] at hpred
  · rintro ⟨hf, hn⟩
    refine ⟨hf, ?_⟩
    rw [globMatches_contains hd hf]
    cases hm : matchesArtifactPattern f.path <;>
      cases hfl : fails f.path <;>
      by_cases ho : f.mtime < now - 3600 <;>
      simp_all

/-- Witness for the C4 amended theorem at a concrete input: a matching
file 10 seconds old is kept by the sweep. -/
theorem cleanup_orphaned_files_characterization_witness :
    (⟨"tmpy.wav", [1], 9990⟩ : FileEntry) ∈
        cleanup_orphaned_files 10000 (fun _ => false)
          [⟨"tmpy.wav", [1], 9990⟩] ↔
      (⟨"tmpy.wav", [1], 9990⟩ : FileEntry) ∈
          [(⟨"tmpy.wav", [1], 9990⟩ : FileEntry)] ∧
        ¬(matchesArtifactPattern "tmpy.wav" = true ∧
          (9990 : Nat) < 10000 - 3600 ∧ (fun _ => false) "tmpy.wav" = false) :=
  cleanup_orphaned_files_characterization 10000 (fun _ => false)
    [⟨"tmpy.wav", [1], 9990⟩] (by unfold pathsNodup; decide)
    ⟨"tmpy.wav", [1], 9990⟩

/-- C4 counterexample: the claim requires a configurable threshold such
that threshold 0 deletes every matching file; but the code's sweep — the
only sweep in the program — keeps a matching file that is 10 seconds
old (it deletes only files older than the fixed 3600 s), while deleting
a matching file older than an hour. -/
theorem sweep_threshold_fixed_cex :
    cleanup_orphaned_files 10000 (fun _ => false)
      [⟨"tmpa.wav", [1], 9990⟩] = [⟨"tmpa.wav", [1], 9990⟩] ∧
    matchesArtifactPattern "tmpa.wav" = true ∧
    cleanup_orphaned_files 10000 (fun _ => false)
      [⟨"tmpold.wav", [1], 100⟩] = [] := by decide

/-- C7: contrary to the claim, the orphan sweep is never invoked:
neither the module body (which only registers the exit finalizer) nor
any branch of `main` contains a call to `cleanup_orphaned_files`, so no
sweep runs at session start. -/
theorem sweep_orphans_never_invoked
    (testButton reloadNeeded haveModelAndText genOk : Bool) :
    LifecycleOp.sweepOrphans ∉
      sessionStartOps testButton reloadNeeded haveModelAndText genOk := by
  cases testButton <;> cases reloadNeeded <;> cases haveModelAndText <;>
    cases genOk <;> decide

/-- C10: the Sophie and Laurent entries of the fixed voice table carry
speaker identifiers ending in a newline character, and `main` passes the
identifier, newline included, unchanged to the provider (the YourTTS
branch forwards the table's speaker string verbatim). -/
theorem sophie_laurent_newline_speakers (model : TTSModel)
    (text : String) (hml : model.multilingual = true) :
    voice_options[2]? = some ("👩 Sophie (Voix Féminine Naturelle)",
      "tts_models/multilingual/multi-dataset/your_tts",
      some "female-pt-4\n") ∧
    voice_options[4]? = some ("👨 Laurent (Voix Masculine Expressive)",
      "tts_models/multilingual/multi-dataset/your_tts",
      some "male-pt-3\n") ∧
    "female-pt-4\n".toList.getLast? = some '\n' ∧
    "male-pt-3\n".toList.getLast? = some '\n' ∧
    (mainCallArgs model text
        "tts_models/multilingual/multi-dataset/your_tts"
        (some "female-pt-4\n")).speaker = some "female-pt-4\n" ∧
    (mainCallArgs model text
        "tts_models/multilingual/multi-dataset/your_tts"
        (some "male-pt-3\n")).speaker = some "male-pt-3\n" := by
  have hc : containsYourTTS
      "tts_models/multilingual/multi-dataset/your_tts" = true := by decide
  have ht1 : truthy (some "female-pt-4\n") = true := by decide
  have ht2 : truthy (some "male-pt-3\n") = true := by decide
  have htf : truthy (some "fr-fr") = true := by decide
  refine ⟨by decide, by decide, by decide, by decide, ?_, ?_⟩
  · simp [mainCallArgs, hc, ht1, htf, ttsDispatch, hml]
  · simp [mainCallArgs, hc, ht2, htf, ttsDispatch, hml]

/-- Witness for C10 at a concrete multilingual model. -/
theorem sophie_laurent_newline_speakers_witness :
    voice_options[2]? = some ("👩 Sophie (Voix Féminine Naturelle)",
      "tts_models/multilingual/multi-dataset/your_tts",
      some "female-pt-4\n") ∧
    voice_options[4]? = some ("👨 Laurent (Voix Masculine Expressive)",
      "tts_models/multilingual/multi-dataset/your_tts",
      some "male-pt-3\n") ∧
    "female-pt-4\n".toList.getLast? = some '\n' ∧
    "male-pt-3\n".toList.getLast? = some '\n' ∧
    (mainCallArgs ⟨true, true⟩ "bonjour"
        "tts_models/multilingual/multi-dataset/your_tts"
        (some "female-pt-4\n")).speaker = some "female-pt-4\n" ∧
    (mainCallArgs ⟨true, true⟩ "bonjour"
        "tts_models/multilingual/multi-dataset/your_tts"
        (some "male-pt-3\n")).speaker = some "male-pt-3\n" :=
  sophie_laurent_newline_speakers ⟨true, true⟩ "bonjour" rfl
